import Mathlib

/-!
A verification development for the concurrency utilities in
`src/prefect/utilities/executors.py`: the `Heartbeat` periodic invoker,
the `run_with_heartbeat` decorator and the `timeout_handler` deadline
wrapper.  Stateful Python code is embedded as explicit state passing and
observable event traces; fallible code returns `Except`.  Thread timing
is abstracted into oracle inputs (how many loop iterations ran before the
exit flag was observed; whether a future completed within its deadline).
-/

/-- Python exceptions that the embedded fragments can raise themselves
(as opposed to exceptions of the wrapped callables, which are carried in
a separate type parameter `ε`). -/
inductive PyErr where
  | attributeError (name : String)
  | typeError (msg : String)
deriving Repr, DecidableEq

/-- Python `round` applied to an `int` returns it unchanged; this models
the `round(iters % self.rate)` expression in `Heartbeat.start.looper`,
where both `iters` and `self.rate` are `int`s. -/
def pyRound (n : Int) : Int := n

/-- The `Heartbeat` object of `executors.py`.  `interval` and
`rate = min(interval, 1)` are set in `__init__`, `function` is the stored
callback, `exitFlag` is the `_exit` field, and `hasExecutor` records
whether the `executor` attribute has been set (which happens only in
`start()`). -/
structure Heartbeat (κ : Type) where
  interval : Int
  rate : Int
  function : κ
  exitFlag : Bool
  hasExecutor : Bool
deriving Repr

/-- `Heartbeat.__init__(self, interval, function)`. -/
def Heartbeat.init (interval : Int) (function : κ) : Heartbeat κ :=
  { interval := interval
    rate := min interval 1
    function := function
    exitFlag := false
    hasExecutor := false }

/-- `Heartbeat.start(self)`: creates the `ThreadPoolExecutor` (setting the
`executor` attribute) and submits the `looper` closure to it. -/
def Heartbeat.start (h : Heartbeat κ) : Heartbeat κ :=
  { h with hasExecutor := true }

/-- `self.executor.shutdown()`: reading the `executor` attribute on an
object that never ran `start()` would raise `AttributeError`; on an object
that has the attribute, the call joins the pool threads (a blocking wait)
and returns.  The attribute itself remains set afterwards, so the state is
unchanged. -/
def Heartbeat.shutdownExecutor (h : Heartbeat κ) : Except PyErr (Heartbeat κ) :=
  if h.hasExecutor then .ok h
  else .error (.attributeError "executor")

/-- `Heartbeat.cancel(self)`: sets `self._exit = True`, then calls
`self.executor.shutdown()` only when `hasattr(self, "executor")`.  The
returned `Bool` records whether the blocking `shutdown()` join was
performed (`false` means the call only flipped the flag: a no-op as far
as blocking or thread interaction is concerned). -/
def Heartbeat.cancel (h : Heartbeat κ) : Except PyErr (Heartbeat κ × Bool) :=
  let h1 := { h with exitFlag := true }
  if h1.hasExecutor then
    (h1.shutdownExecutor).map (fun h2 => (h2, true))
  else
    .ok (h1, false)

/-- `cancel()` called `n` times in a row on the same object, stopping at
the first raise. -/
def Heartbeat.cancelIter (h : Heartbeat κ) : Nat → Except PyErr (Heartbeat κ)
  | 0 => .ok h
  | n + 1 => (h.cancel).bind (fun p => p.1.cancelIter n)

/-- One pass of the `looper` body: whether `self.function()` is invoked on
this pass (`round(iters % self.rate) == 0`), and the next value of `iters`
(`(iters + 1) % self.interval`). -/
def Heartbeat.looperIter (h : Heartbeat κ) (iters : Int) : Bool × Int :=
  (pyRound (iters % h.rate) == 0, (iters + 1) % h.interval)

/-- The `looper` loop run from counter value `iters` for `n` iterations —
`n` models the number of `while not self._exit` reads that came back
`False` before the flag was observed set.  Each entry records whether the
callback fired on that pass and the duration of the `time.sleep(self.rate)`
that follows it. -/
def Heartbeat.looperTrace (h : Heartbeat κ) : Nat → Int → List (Bool × Int)
  | 0, _ => []
  | n + 1, iters =>
      ((h.looperIter iters).1, h.rate) :: h.looperTrace n (h.looperIter iters).2

/-- The specification wording of the loop algorithm, for comparison with
`Heartbeat.looperTrace`: tick counter `i`, fire the callback when
`i mod tickRate == 0`, increment `i` wrapping modulo `interval`, sleep
`tickRate` seconds, repeat while the flag allows (`n` remaining reads). -/
def specLooperTrace (interval tickRate : Int) : Nat → Int → List (Bool × Int)
  | 0, _ => []
  | n + 1, i =>
      (i % tickRate == 0, tickRate) :: specLooperTrace interval tickRate n ((i + 1) % interval)

/-- Observable events of one invocation of the wrapper produced by
`run_with_heartbeat`, in program order. -/
inductive HBEvent where
  | timerConstructed
  | probeCalled
  | heartbeatStarted
  | warnedZombie
  | opInvoked
  | cancelCalled (shutdownPerformed : Bool)
deriving Repr, DecidableEq

/-- Whether an event is an invocation of `timer.cancel()`. -/
def HBEvent.isCancel : HBEvent → Bool
  | .cancelCalled _ => true
  | _ => false

/-- Whether the pre-flight `self._heartbeat()` outcome makes the wrapper
start the timer (`if self._heartbeat(): timer.start()` — only a returned
`True` does; a returned `False` or a raise does not). -/
def probeStarts : Except ε Bool → Bool
  | .ok true => true
  | _ => false

/-- The observable outcome of one call to the `inner` wrapper: the event
trace, the final state of the `Heartbeat`, and the value returned or the
exception propagated to the caller. -/
structure HBRun (ε α : Type) where
  events : List HBEvent
  timer : Heartbeat Unit
  result : Except ε α
deriving Repr

/-- `run_with_heartbeat(runner_method).inner`, embedded over the outcome
`probe` of the single synchronous pre-flight `self._heartbeat()` call and
the outcome `op` of `runner_method(self, *args, **kwargs)`.  The Python
control flow: construct the `Heartbeat`; inside `try/try`, call the probe
— if it raises, catch and log the zombie warning; if it returns `True`,
`timer.start()`; then run the wrapped method and return its outcome; the
`finally` block runs `timer.cancel()` on every exit path. -/
def runWithHeartbeatInner (interval : Int) (probe : Except ε Bool)
    (op : Except ε α) : HBRun ε α :=
  let timer0 : Heartbeat Unit := Heartbeat.init interval ()
  let startPhase : List HBEvent × Heartbeat Unit :=
    match probe with
    | .ok true => ([.probeCalled, .heartbeatStarted], timer0.start)
    | .ok false => ([.probeCalled], timer0)
    | .error _ => ([.probeCalled, .warnedZombie], timer0)
  match startPhase.2.cancel with
  | .ok (timer2, didJoin) =>
      { events := [.timerConstructed] ++ startPhase.1 ++ [.opInvoked, .cancelCalled didJoin]
        timer := timer2
        result := op }
  | .error _ =>
      { events := [.timerConstructed] ++ startPhase.1 ++ [.opInvoked]
        timer := startPhase.2
        result := op }

/-- Outcome classification of one `timeout_handler` call.  `fnError`
wraps an exception raised by `fn` itself (propagated unchanged);
`timeout` is the `TimeoutError` that `timeout_handler` itself raises;
`typeError` is a Python `TypeError` raised while evaluating the
`executor.submit(...)` call expression. -/
inductive THError (ε : Type) where
  | fnError (e : ε)
  | timeout (msg : String)
  | typeError (msg : String)
deriving Repr, DecidableEq

/-- Modelled from the spec: `prefect.context` (this repository's ambient
execution-context collaborator, not under `src/`) exposes a scoped
restore — `with prefect.context(_ctx_dict)` makes the captured snapshot
the active context on the worker thread for the duration of the call and
reverts it afterwards.  `capture()` (`prefect.context.to_dict()`) is the
identity copy of the caller's context value: the snapshot is copied, never
shared by reference. -/
def contextRestore (workerBase snapshot : Ctx) : Ctx := snapshot

/-- `run_with_ctx(*args, _ctx_dict, **kwargs)` as defined inside
`timeout_handler`: runs `fn` under the restored context, and the worker
context after the `with` block has reverted to the worker's base
context. -/
def run_with_ctx (fn : Ctx → List (String × V) → Except ε α)
    (workerBase ctxDict : Ctx) (kwargs : List (String × V)) :
    Except ε α × Ctx :=
  (fn (contextRestore workerBase ctxDict) kwargs, workerBase)

/-- The observable trace of one `timeout_handler` call: whether a
`ThreadPoolExecutor` was created, whether a task was dispatched to it,
whether `executor.shutdown()` was ever called, the ambient context `fn`
ran under (`none` when `fn` was never invoked), the worker thread's
context after the task body finished, the keyword arguments forwarded to
`fn` (`none` when `fn` was never invoked), and the returned value or
propagated exception. -/
structure THTrace (Ctx V ε α : Type) where
  executorCreated : Bool
  dispatched : Bool
  shutdownCalled : Bool
  ctxSeenByFn : Option Ctx
  workerCtxAfter : Option Ctx
  fnKwargs : Option (List (String × V))
  result : Except (THError ε) α
deriving Repr

/-- `timeout_handler(fn, *args, timeout=timeout, **kwargs)`, embedded
over: `fn` (which may read the ambient context and its keyword
arguments), the call's `kwargs`, the caller's ambient context `callerCtx`
at call time, `callerCtxAfterDispatch` — what the caller's own context
becomes after dispatch (present as an input to express that it cannot
influence the call: the snapshot was copied before) — the worker
thread's base context `workerBase`, and the oracle `inTime`: whether the
future completed within `timeout` seconds.  Control flow of the source:
`timeout is None` short-circuits to a direct call; otherwise an executor
is created and `executor.submit(run_with_ctx, *args, _ctx_dict=
prefect.context.to_dict(), **kwargs)` is evaluated — if `kwargs` already
binds the key `_ctx_dict`, that call expression raises `TypeError` for a
duplicate keyword argument on the caller's thread before any dispatch;
otherwise the task is dispatched and `fut.result(timeout=timeout)` either
returns/raises the task's outcome or raises `FutureTimeout`, which is
caught and replaced by `TimeoutError("Execution timed out.")`.  No path
calls `executor.shutdown()`. -/
def timeout_handler (timeout : Option Int)
    (fn : Ctx → List (String × V) → Except ε α)
    (kwargs : List (String × V))
    (callerCtx callerCtxAfterDispatch workerBase : Ctx)
    (inTime : Bool) : THTrace Ctx V ε α :=
  match timeout with
  | none =>
      { executorCreated := false
        dispatched := false
        shutdownCalled := false
        ctxSeenByFn := some callerCtx
        workerCtxAfter := none
        fnKwargs := some kwargs
        result := (fn callerCtx kwargs).mapError THError.fnError }
  | some _ =>
      if kwargs.any (fun p => p.1 == "_ctx_dict") then
        { executorCreated := true
          dispatched := false
          shutdownCalled := false
          ctxSeenByFn := none
          workerCtxAfter := none
          fnKwargs := none
          result := .error (.typeError "got multiple values for keyword argument _ctx_dict") }
      else
        let snapshot := callerCtx
        let out := run_with_ctx fn workerBase snapshot kwargs
        { executorCreated := true
          dispatched := true
          shutdownCalled := false
          ctxSeenByFn := some (contextRestore workerBase snapshot)
          workerCtxAfter := some out.2
          fnKwargs := some kwargs
          result :=
            if inTime then out.1.mapError THError.fnError
            else .error (.timeout "Execution timed out.") }

/-- `cancel` never raises: the `hasattr` guard means the only attribute
access is performed when the attribute exists, and the state afterwards
has the `_exit` flag set while `hasExecutor` is unchanged.  The join flag
equals `hasExecutor`. -/
theorem Heartbeat.cancel_ok (h : Heartbeat κ) :
    h.cancel = .ok ({ h with exitFlag := true }, h.hasExecutor) := by
  unfold Heartbeat.cancel Heartbeat.shutdownExecutor
  cases hh : h.hasExecutor <;> simp [hh, Except.map]

/-- The source loop and the specification wording of the loop produce the
same trace from any counter value: `round` on an `int` is the identity,
and the two loops otherwise compute the same fire condition, the same
counter update and the same sleep. -/
theorem Heartbeat.looperTrace_eq_spec (h : Heartbeat κ) (n : Nat) (i : Int) :
    h.looperTrace n i = specLooperTrace h.interval h.rate n i := by
  induction n generalizing i with
  | zero => rfl
  | succ n ih =>
      simp [Heartbeat.looperTrace, specLooperTrace, Heartbeat.looperIter, pyRound, ih]

/-- Claim C4: for every positive integer interval, a started Heartbeat's
tick rate equals `min(interval, 1)`, and the background loop follows the
stated algorithm: counter `i` from 0, invoke the callback when
`i mod tickRate == 0`, increment wrapping modulo `interval`, sleep
`tickRate`, repeat until the exit flag is observed (any number `n` of
iterations before that observation). -/
theorem heartbeat_rate_and_loop_spec (interval : Int) (f : Unit)
    (hpos : 1 ≤ interval) (n : Nat) :
    ((Heartbeat.init interval f).start).rate = min interval 1 ∧
    ((Heartbeat.init interval f).start).looperTrace n 0 =
      specLooperTrace interval (min interval 1) n 0 := by
  constructor
  · rfl
  · have := Heartbeat.looperTrace_eq_spec ((Heartbeat.init interval f).start) n 0
    simpa [Heartbeat.init, Heartbeat.start] using this

/-- Witness for C4 at `interval = 3`, five loop iterations. -/
theorem heartbeat_rate_and_loop_spec_witness :
    ((Heartbeat.init 3 ()).start).rate = min 3 1 ∧
    ((Heartbeat.init 3 ()).start).looperTrace 5 0 =
      specLooperTrace 3 (min 3 1) 5 0 :=
  heartbeat_rate_and_loop_spec 3 () (by decide) 5

/-- Any positive number of consecutive `cancel()` calls succeeds and
leaves the object with the exit flag set and everything else unchanged. -/
theorem Heartbeat.cancelIter_succ_ok (h : Heartbeat κ) (n : Nat) :
    h.cancelIter (n + 1) = .ok { h with exitFlag := true } := by
  induction n generalizing h with
  | zero => simp [Heartbeat.cancelIter, Heartbeat.cancel_ok, Except.bind]
  | succ n ih =>
      have := ih { h with exitFlag := true }
      simp [Heartbeat.cancelIter, Heartbeat.cancel_ok, Except.bind] at this ⊢
      exact this

/-- Claim C8: `cancel()` on a Heartbeat never raises — iterating it any
number of times yields a value, not an exception — and on an object whose
`start()` was never invoked it only sets the exit flag, performing no
blocking `shutdown()` join (the returned flag is `false`). -/
theorem heartbeat_cancel_safe (h : Heartbeat Unit) (n : Nat) :
    (∃ h2, h.cancelIter (n + 1) = .ok h2) ∧
    (h.hasExecutor = false →
      h.cancel = .ok ({ h with exitFlag := true }, false)) := by
  constructor
  · exact ⟨{ h with exitFlag := true }, Heartbeat.cancelIter_succ_ok h n⟩
  · intro hne
    simp [Heartbeat.cancel_ok, hne]

/-- Witness for C8 on a freshly constructed, never-started Heartbeat,
cancelled three times. -/
theorem heartbeat_cancel_safe_witness :
    (∃ h2, (Heartbeat.init 5 ()).cancelIter 3 = .ok h2) ∧
    ((Heartbeat.init 5 ()).hasExecutor = false →
      (Heartbeat.init 5 ()).cancel =
        .ok ({ Heartbeat.init 5 () with exitFlag := true }, false)) :=
  heartbeat_cancel_safe (Heartbeat.init 5 ()) 2

/-- Claim C1: on every invocation of the wrapper, whatever the probe and
the wrapped operation do, `timer.cancel()` occurs exactly once, it is the
last thing before control leaves, and the blocking part of the cancel was
performed exactly when a Heartbeat loop had been started (`probeStarts
probe`); when no loop was started the cancel only sets the exit flag — a
no-op. -/
theorem runWithHeartbeat_cancel_exactly_once (interval : Int)
    (probe : Except ε Bool) (op : Except ε α) :
    ((runWithHeartbeatInner interval probe op).events.filter HBEvent.isCancel) =
      [HBEvent.cancelCalled (probeStarts probe)] ∧
    (runWithHeartbeatInner interval probe op).events.getLast? =
      some (HBEvent.cancelCalled (probeStarts probe)) := by
  rcases probe with e | b
  · exact ⟨rfl, rfl⟩
  · cases b
    · exact ⟨rfl, rfl⟩
    · exact ⟨rfl, rfl⟩

/-- Claim C5: when the pre-flight probe raises, the wrapper logs the
zombie warning, never starts the Heartbeat loop (no `heartbeatStarted`
event occurs in the trace), still invokes the wrapped operation, returns
its outcome unchanged, and the final cancel performs no join. -/
theorem runWithHeartbeat_probe_raises_degrades (interval : Int) (e : ε)
    (op : Except ε α) :
    (runWithHeartbeatInner interval (Except.error e) op).events =
      [HBEvent.timerConstructed, HBEvent.probeCalled, HBEvent.warnedZombie,
       HBEvent.opInvoked, HBEvent.cancelCalled false] ∧
    (runWithHeartbeatInner interval (Except.error e) op).result = op := by
  constructor
  · rfl
  · rfl

/-- Claim C10: when the pre-flight probe returns `False`, the wrapper
constructs the timer but never calls `start()` (no `heartbeatStarted`
event occurs in the trace, so no loop runs and the callback is never
invoked by a loop), still invokes the wrapped operation, returns its
outcome unchanged, and the final cancel on the never-started Heartbeat
performs no join — a no-op. -/
theorem runWithHeartbeat_probe_false_no_start (interval : Int)
    (op : Except ε α) :
    (runWithHeartbeatInner interval (Except.ok false) op).events =
      [HBEvent.timerConstructed, HBEvent.probeCalled,
       HBEvent.opInvoked, HBEvent.cancelCalled false] ∧
    (runWithHeartbeatInner interval (Except.ok false) op).result = op := by
  constructor
  · rfl
  · rfl

/-- Claim C2: `timeout_handler` produces its own
`TimeoutError("Execution timed out.")` exactly when a deadline was given,
the task was dispatched, and the future did not complete within the
deadline; the error carries only the message, no partial result, and no
other run of `timeout_handler` produces a `THError.timeout`. -/
theorem timeoutHandler_timeout_iff (timeout : Option Int)
    (fn : Ctx → List (String × V) → Except ε α) (kwargs : List (String × V))
    (c1 c2 wb : Ctx) (inTime : Bool) (m : String) :
    ((timeout_handler timeout fn kwargs c1 c2 wb inTime).result =
        .error (THError.timeout m)) ↔
      (timeout.isSome = true ∧
       (timeout_handler timeout fn kwargs c1 c2 wb inTime).dispatched = true ∧
       inTime = false ∧ m = "Execution timed out.") := by
  cases timeout with
  | none =>
      cases hfn : fn c1 kwargs <;>
        simp [timeout_handler, hfn, Except.mapError, Except.map]
  | some t =>
      by_cases hdup : kwargs.any (fun p => p.1 == "_ctx_dict") = true
      · simp [timeout_handler, hdup]
      · cases inTime
        · simp [timeout_handler, hdup, run_with_ctx, eq_comm]
        · cases hfn : fn (contextRestore wb c1) kwargs <;>
            simp [timeout_handler, hdup, run_with_ctx, hfn, Except.mapError,
              Except.map]

/-- Witness for C2: a concrete dispatched call that misses its deadline
fails with the timeout error. -/
theorem timeoutHandler_timeout_iff_witness :
    (timeout_handler (some 1)
        (fun (_ : Int) (_ : List (String × Int)) => (Except.ok 7 : Except Int Int))
        [] 0 0 0 false).result = .error (THError.timeout "Execution timed out.") :=
  (timeoutHandler_timeout_iff (some 1)
      (fun (_ : Int) (_ : List (String × Int)) => (Except.ok 7 : Except Int Int))
      [] 0 0 0 false "Execution timed out.").mpr ⟨rfl, rfl, rfl, rfl⟩

/-- Claim C3: with `timeout=None` the call is the direct call — same
result, same propagated exception (up to the `fnError` provenance tag),
no executor created, no dispatch, the original keyword arguments reach
`fn`, and `fn` runs under the caller's own ambient context. -/
theorem timeoutHandler_none_is_direct_call
    (fn : Ctx → List (String × V) → Except ε α) (kwargs : List (String × V))
    (c1 c2 wb : Ctx) (inTime : Bool) :
    (timeout_handler none fn kwargs c1 c2 wb inTime).result =
      (fn c1 kwargs).mapError THError.fnError ∧
    (timeout_handler none fn kwargs c1 c2 wb inTime).executorCreated = false ∧
    (timeout_handler none fn kwargs c1 c2 wb inTime).dispatched = false ∧
    (timeout_handler none fn kwargs c1 c2 wb inTime).fnKwargs = some kwargs ∧
    (timeout_handler none fn kwargs c1 c2 wb inTime).ctxSeenByFn = some c1 := by
  exact ⟨rfl, rfl, rfl, rfl, rfl⟩

/-- Claim C6 counterexample: at a concrete in-time call the task's result
comes back unchanged, but `shutdownCalled` is `false`: no path of
`timeout_handler` calls `executor.shutdown()`, so the per-call executor
is not released before the function returns, contradicting the release
part of the claim. -/
theorem timeoutHandler_no_release_counterexample :
    (timeout_handler (some 5)
        (fun (_ : Int) (_ : List (String × Int)) => (Except.ok 42 : Except Int Int))
        [] 0 0 0 true).result = .ok 42 ∧
    (timeout_handler (some 5)
        (fun (_ : Int) (_ : List (String × Int)) => (Except.ok 42 : Except Int Int))
        [] 0 0 0 true).shutdownCalled = false :=
  ⟨rfl, rfl⟩

/-- Claim C6 as amended: a deadline-bounded call whose future completes
in time returns the task's result (or propagates its failure) unchanged,
but `timeout_handler` never calls `executor.shutdown()` before returning —
release of the per-call executor is left to garbage collection after the
call. -/
theorem timeoutHandler_intime_unchanged_no_shutdown (t : Int)
    (fn : Ctx → List (String × V) → Except ε α) (kwargs : List (String × V))
    (c1 c2 wb : Ctx)
    (hnodup : kwargs.any (fun p => p.1 == "_ctx_dict") = false) :
    (timeout_handler (some t) fn kwargs c1 c2 wb true).result =
      (fn (contextRestore wb c1) kwargs).mapError THError.fnError ∧
    (timeout_handler (some t) fn kwargs c1 c2 wb true).shutdownCalled = false := by
  simp [timeout_handler, hnodup, run_with_ctx]

/-- Witness for the amended C6 at a concrete in-time call. -/
theorem timeoutHandler_intime_unchanged_no_shutdown_witness :
    ((timeout_handler (some 2)
        (fun (_ : Int) (_ : List (String × Int)) => (Except.ok 9 : Except Int Int))
        [] 3 4 5 true).result =
      ((fun (_ : Int) (_ : List (String × Int)) => (Except.ok 9 : Except Int Int))
          (contextRestore 5 3) []).mapError THError.fnError) ∧
    (timeout_handler (some 2)
        (fun (_ : Int) (_ : List (String × Int)) => (Except.ok 9 : Except Int Int))
        [] 3 4 5 true).shutdownCalled = false :=
  timeoutHandler_intime_unchanged_no_shutdown 2
    (fun (_ : Int) (_ : List (String × Int)) => (Except.ok 9 : Except Int Int))
    [] 3 4 5 rfl

/-- Claim C7: in a deadline-bounded call the context `fn` runs under
equals the caller's context at call time — the captured snapshot — for
every possible later caller context `c2` (the snapshot was copied before
dispatch, so later caller changes cannot flow in), and the worker
thread's context reverts to its base after the scoped restore. -/
theorem timeoutHandler_ctx_snapshot (t : Int)
    (fn : Ctx → List (String × V) → Except ε α) (kwargs : List (String × V))
    (c1 c2 wb : Ctx) (inTime : Bool)
    (hnodup : kwargs.any (fun p => p.1 == "_ctx_dict") = false) :
    (timeout_handler (some t) fn kwargs c1 c2 wb inTime).ctxSeenByFn = some c1 ∧
    (timeout_handler (some t) fn kwargs c1 c2 wb inTime).workerCtxAfter = some wb := by
  simp [timeout_handler, hnodup, run_with_ctx, contextRestore]

/-- Witness for C7 at a concrete call where the caller's context changes
from 3 to 4 after dispatch: the context seen by `fn` is still 3. -/
theorem timeoutHandler_ctx_snapshot_witness :
    (timeout_handler (some 1)
        (fun (c : Int) (_ : List (String × Int)) => (Except.ok c : Except Int Int))
        [] 3 4 5 true).ctxSeenByFn = some 3 ∧
    (timeout_handler (some 1)
        (fun (c : Int) (_ : List (String × Int)) => (Except.ok c : Except Int Int))
        [] 3 4 5 true).workerCtxAfter = some 5 :=
  timeoutHandler_ctx_snapshot 1
    (fun (c : Int) (_ : List (String × Int)) => (Except.ok c : Except Int Int))
    [] 3 4 5 true rfl

/-- Claim C9: when the caller's keyword arguments already bind the key
reserved for the context snapshot, the `executor.submit(...)` call
expression raises a duplicate-keyword `TypeError` on the caller's thread:
nothing is dispatched and the caller's value for that key is never
forwarded to `fn` (which is never invoked). -/
theorem timeoutHandler_ctx_dict_reserved (t : Int)
    (fn : Ctx → List (String × V) → Except ε α) (kwargs : List (String × V))
    (c1 c2 wb : Ctx) (inTime : Bool) (v : V)
    (hdup : ("_ctx_dict", v) ∈ kwargs) :
    (timeout_handler (some t) fn kwargs c1 c2 wb inTime).result =
      .error (THError.typeError "got multiple values for keyword argument _ctx_dict") ∧
    (timeout_handler (some t) fn kwargs c1 c2 wb inTime).dispatched = false ∧
    (timeout_handler (some t) fn kwargs c1 c2 wb inTime).fnKwargs = none := by
  have hany : kwargs.any (fun p => p.1 == "_ctx_dict") = true :=
    List.any_eq_true.mpr ⟨("_ctx_dict", v), hdup, by simp⟩
  simp [timeout_handler, hany]

/-- Witness for C9 with the single keyword argument `_ctx_dict`. -/
theorem timeoutHandler_ctx_dict_reserved_witness :
    (timeout_handler (some 1)
        (fun (_ : Int) (_ : List (String × Int)) => (Except.ok 0 : Except Int Int))
        [("_ctx_dict", 0)] 0 0 0 true).result =
      .error (THError.typeError "got multiple values for keyword argument _ctx_dict") ∧
    (timeout_handler (some 1)
        (fun (_ : Int) (_ : List (String × Int)) => (Except.ok 0 : Except Int Int))
        [("_ctx_dict", 0)] 0 0 0 true).dispatched = false ∧
    (timeout_handler (some 1)
        (fun (_ : Int) (_ : List (String × Int)) => (Except.ok 0 : Except Int Int))
        [("_ctx_dict", 0)] 0 0 0 true).fnKwargs = none :=
  timeoutHandler_ctx_dict_reserved 1
    (fun (_ : Int) (_ : List (String × Int)) => (Except.ok 0 : Except Int Int))
    [("_ctx_dict", 0)] 0 0 0 true 0 (by simp)
